import Mathlib

set_option maxRecDepth 8000
set_option linter.unusedVariables false

/- Shallow embedding of the NMS_Plugin SNMP polling/discovery engine.

   The repository contains two generations of the same pipeline:
   the legacy generation (src/snmp/snmpfetcher.go, src/handler/zmq.go,
   src/config/oids.go) and the newer generation
   (src/src/plugin/snmp/polling.go, src/src/plugin/snmp/discovery.go,
   src/src/server/server.go and the unnamed parts part_003..part_005,
   which are further snapshots of the src/src/plugin/snmp package).
   Each definition below is transcribed from one Go source location,
   cited in its comment.

   Modelling conventions:
   - Go dynamic values (interface\x7b\x7d) are modelled by the inductive
     GoValue restricted to the shapes the pipeline actually handles:
     nil, string, int, uint32 and byte slices.  The float64 and []int
     branches of the legacy decode switch are outside this value domain
     (no claim exercises them).
   - Go maps are modelled as association lists; writes overwrite an
     existing key in place (assocSet), reads return none / the Go zero
     value for a missing key.  Go map iteration order is arbitrary; the
     OID tables are fixed to their source listing order, which is an
     admissible iteration order.
   - Go run-time panics (failed type assertion, index out of range,
     nil-pointer dereference) are modelled by the GoRes.panicked
     constructor; the message text is a fixed descriptive constant.
   - The network (gosnmp connect / get / walk) is abstracted by a Device
     oracle; every network round trip performed by a pipeline is recorded
     in a NetCall trace so that call counts can be reasoned about.
   - Go string([]byte) is modelled bytewise (faithful for the ASCII
     payloads all claims use). -/

inductive GoValue where
  | goNil
  | goStr (s : String)
  | goInt (n : Int)
  | goUint32 (n : Nat)
  | goBytes (b : List Nat)
  deriving Repr, DecidableEq

def assocGet? {α : Type} : List (String × α) → String → Option α
  | [], _ => none
  | (k0, v0) :: rest, k => if k0 = k then some v0 else assocGet? rest k

def assocSet {α : Type} : List (String × α) → String → α → List (String × α)
  | [], k, v => [(k, v)]
  | (k0, v0) :: rest, k, v =>
      if k0 = k then (k, v) :: rest else (k0, v0) :: assocSet rest k v

def lookupGo (m : List (String × GoValue)) (k : String) : GoValue :=
  (assocGet? m k).getD .goNil

/-- Lookup in a Go map[string]string: a missing key reads as the zero value "". -/
def lookupD (t : List (String × String)) (k : String) : String :=
  (assocGet? t k).getD ""

/-- Go string([]byte), modelled bytewise (exact for ASCII payloads). -/
def byteListToString (bs : List Nat) : String :=
  String.mk (bs.map (fun b => Char.ofNat (b % 256)))

def hexDigitChar (n : Nat) : Char :=
  if n < 10 then Char.ofNat (48 + n) else Char.ofNat (97 + (n - 10))

/-- hex.EncodeToString: two lowercase hex digits per byte. -/
def hexEncode (bs : List Nat) : String :=
  String.mk (bs.foldr (fun b acc => hexDigitChar ((b % 256) / 16) :: hexDigitChar (b % 16) :: acc) [])

def digitsToNat (ds : List Char) : Nat :=
  ds.foldl (fun acc c => acc * 10 + (c.toNat - 48)) 0

/-- strconv.Atoi: optional sign followed by one or more decimal digits
    (int64 overflow is not modelled; no claim exercises it). -/
def atoi (s : String) : Option Int :=
  match s.toList with
  | [] => none
  | c :: rest =>
    let ds := if c = '-' ∨ c = '+' then rest else c :: rest
    if ds = [] then none
    else if ds.all (fun d => d.isDigit) then
      some (if c = '-' then -(digitsToNat ds : Int) else (digitsToNat ds : Int))
    else none

/-- util.SNMPOids (src/unnamed/part_002 second chunk) and config.SNMPOids
    (src/config/oids.go): identical tables, listed in source order. -/
def snmpOidsTable : List (String × String) :=
  [("1.3.6.1.2.1.1.5.0", "system.name"),
   ("1.3.6.1.2.1.1.1.0", "system.description"),
   ("1.3.6.1.2.1.1.6.0", "system.location"),
   ("1.3.6.1.2.1.1.2.0", "system.objectId"),
   ("1.3.6.1.2.1.1.3.0", "system.uptime"),
   ("1.3.6.1.2.1.2.1.0", "system.interfaces")]

/-- util.InterfaceOids (src/unnamed/part_002 second chunk), dotted field names. -/
def interfaceOidsUtil : List (String × String) :=
  [("1.3.6.1.2.1.2.2.1.1", "interface.index"),
   ("1.3.6.1.2.1.31.1.1.1.1", "interface.name"),
   ("1.3.6.1.2.1.31.1.1.1.18", "interface.alias"),
   ("1.3.6.1.2.1.2.2.1.8", "interface.operational.status"),
   ("1.3.6.1.2.1.2.2.1.7", "interface.admin.status"),
   ("1.3.6.1.2.1.2.2.1.2", "interface.description"),
   ("1.3.6.1.2.1.2.2.1.20", "interface.sent.error.packets"),
   ("1.3.6.1.2.1.2.2.1.14", "interface.received.error.packets"),
   ("1.3.6.1.2.1.2.2.1.16", "interface.sent.octets"),
   ("1.3.6.1.2.1.2.2.1.10", "interface.received.octets"),
   ("1.3.6.1.2.1.2.2.1.5", "interface.speed"),
   ("1.3.6.1.2.1.2.2.1.6", "interface.physical.address"),
   ("1.3.6.1.2.1.2.2.1.13", "interface.discard.packets"),
   ("1.3.6.1.2.1.2.2.1.11", "interface.in.packets"),
   ("1.3.6.1.2.1.2.2.1.17", "interface.out.packets")]

/-- config.InterfaceOids (src/config/oids.go), CamelCase field names. -/
def interfaceOidsConfig : List (String × String) :=
  [("1.3.6.1.2.1.2.2.1.1", "Index"),
   ("1.3.6.1.2.1.31.1.1.1.1", "Name"),
   ("1.3.6.1.2.1.31.1.1.1.18", "Alias"),
   ("1.3.6.1.2.1.2.2.1.8", "OperationalStatus"),
   ("1.3.6.1.2.1.2.2.1.7", "AdminStatus"),
   ("1.3.6.1.2.1.2.2.1.2", "Description"),
   ("1.3.6.1.2.1.2.2.1.20", "SentErrorPackets"),
   ("1.3.6.1.2.1.2.2.1.14", "ReceivedErrorPackets"),
   ("1.3.6.1.2.1.2.2.1.16", "SentOctets"),
   ("1.3.6.1.2.1.2.2.1.10", "ReceivedOctets"),
   ("1.3.6.1.2.1.2.2.1.5", "Speed"),
   ("1.3.6.1.2.1.2.2.1.6", "PhysicalAddress"),
   ("1.3.6.1.2.1.2.2.1.13", "DiscardPackets"),
   ("1.3.6.1.2.1.2.2.1.11", "InPackets"),
   ("1.3.6.1.2.1.2.2.1.17", "OutPackets")]

def sysOidList : List String := snmpOidsTable.map (fun p => p.1)

/-- Outcome of running a piece of Go code that may hit a run-time panic. -/
inductive GoRes (α : Type) where
  | ok (a : α)
  | panicked (msg : String)
  deriving Repr, DecidableEq

/-- One network round trip made through the gosnmp library. -/
inductive NetCall where
  | connectCall
  | getCall (oids : List String)
  | walkCall (oid : String)
  deriving Repr, DecidableEq

def isWalkCallB : NetCall → Bool
  | .walkCall _ => true
  | _ => false

/-- Abstraction of the remote device / gosnmp session: connect outcome,
    per-request batched Get responses (one GoValue per returned variable)
    and subtree-walk responses (the returned object names). -/
structure Device where
  connectOk : Bool
  connectErr : String
  get : List String → Except String (List GoValue)
  walk : String → Except String (List String)

/- String constants from the snmp package of the src/src generation
   (src/unnamed/part_003 chunks, part_004, part_005, polling.go). -/

def failS : String := "fail"
def successS : String := "success"
def fieldMissingS : String := "field missing"
def unsupportedSNMPS : String := "unsupported SNMP version"
def snmpConnectFailS : String := "SNMP connection failed"
def nilS : String := "nil"
def errorK : String := "error"
def messageK : String := "message"
def indexK : String := "index"
def interfacesK : String := "interfaces"
def interfaceErrorK : String := "interfaces.error"
def systemNameK : String := "system.name"
def systemDescriptionK : String := "system.description"
def systemLocationK : String := "system.location"
def systemObjectIdK : String := "system.objectId"
def systemUptimeK : String := "system.uptime"
def systemInterfacesK : String := "system.interfaces"
def physicalAddressK : String := "interface.physical.address"
def ifNameColumnOid : String := ".1.3.6.1.2.1.31.1.1.1.1"
def oidNotFoundUtilS : String := "no OIDs found in util.SNMPOids"
def errorMissingFieldS : String := "Missing or null field"
def failedParseIndexS : String := "failed to parse index"

/- Panic-message constants (the pipelines only test whether a panic occurred). -/

def indexOutOfRangeMsg : String := "runtime error: index out of range"
def uint32ConvMsg : String := "interface conversion: value is not uint32"
def stringConvMsg : String := "interface conversion: value is not string"
def nilConnCloseMsg : String := "runtime error: nil pointer dereference in deferred Close"

inductive SnmpVersion where
  | v1
  | v2c
  | v3
  deriving Repr, DecidableEq

/-- Version switch of the legacy generation, which logs and silently
    defaults any unsupported value to Version2c:
    src/snmp/snmpfetcher.go lines 34-44, src/src/plugin/snmp/polling.go
    lines 39-53, src/src/plugin/snmp/discovery.go lines 21-36. -/
def legacyVersionSwitch (version : String) : SnmpVersion :=
  match version with
  | "1" => .v1
  | "2" => .v2c
  | "2c" => .v2c
  | "3" => .v3
  | _ => .v2c

/-- Version switch of the src/src generation, which rejects any
    unsupported value: src/unnamed/part_004 lines 57-74, part_005
    lines 57-75, part_003 Discovery chunks. -/
def mapVersionStrict (version : String) : Option SnmpVersion :=
  match version with
  | "1" => some .v1
  | "2" => some .v2c
  | "2c" => some .v2c
  | "3" => some .v3
  | _ => none

/-- The request map reqData of the src/src generation, restricted to the
    keys the snmp package reads (ip, community, version, pluginType,
    requestID); a none field models an absent map key (a nil interface). -/
structure Req where
  ip : Option GoValue
  community : Option GoValue
  version : Option GoValue
  pluginType : Option GoValue
  requestId : Option GoValue
  deriving Repr, DecidableEq

def isMissingField (v : Option GoValue) : Bool :=
  match v with
  | none => true
  | some w => w == .goStr ""

/-- ValidateRequest of src/unnamed/part_003 (final chunk): the required
    fields ip, pluginType, requestID must be present and differ from "";
    Go compares the interface value with the string "", so only a string
    "" (or an absent key) counts as missing. Returns true iff valid. -/
def ValidateRequest_sv (req : Req) : Bool :=
  !(isMissingField req.ip || isMissingField req.pluginType || isMissingField req.requestId)

/-- validateRequest of src/handler/zmq.go lines 233-254: returns the
    (values, missingFields) pair for the required fields ip, community,
    version, flagging absent or empty entries. -/
def validateRequest_zmq (reqData : List (String × String)) :
    List (String × String) × List (String × String) :=
  let step := fun (acc : List (String × String) × List (String × String)) (field : String) =>
    match assocGet? reqData field with
    | none => (acc.1, acc.2 ++ [(field, errorMissingFieldS)])
    | some v =>
      if v = "" then (acc.1, acc.2 ++ [(field, errorMissingFieldS)])
      else (acc.1 ++ [(field, v)], acc.2)
  ["ip", "community", "version"].foldl step ([], [])

/-- Scalar decode of the src/src generation fetchSNMPSystemData
    (part_004 lines 192-209, part_005 lines 200-224, polling.go lines
    154-178): nil becomes the sentinel string "nil", byte slices become
    strings, everything else passes through as its native value. -/
def decodeSysValGV : GoValue → GoValue
  | .goNil => .goStr nilS
  | .goBytes b => .goStr (byteListToString b)
  | v => v

/-- Scalar decode of the legacy FetchSNMPSystemData
    (src/snmp/snmpfetcher.go lines 117-145), which renders every value
    to a string (the float64 and []int branches fall outside the
    modelled value domain). -/
def decodeSysValLegacy : GoValue → String
  | .goNil => nilS
  | .goStr s => s
  | .goInt n => toString n
  | .goBytes b => byteListToString b
  | .goUint32 n => toString n

/-- The positional zip of fetchSNMPSystemData: the i-th returned variable
    is stored under the field name mapped from the i-th OID that was sent
    (part_004 lines 192-210; snmpData[util.SNMPOids[oidArray[i]]] = value).
    Returns none when the response holds more variables than OIDs were
    sent, since oidArray[i] then panics with index out of range. -/
def zipSnmpGV : List String → List GoValue → List (String × GoValue) →
    Option (List (String × GoValue))
  | _, [], m => some m
  | [], _ :: _, _ => none
  | oid :: oids, v :: vs, m =>
      zipSnmpGV oids vs (assocSet m (lookupD snmpOidsTable oid) (decodeSysValGV v))

/-- Same positional zip in the legacy string-valued fetcher
    (src/snmp/snmpfetcher.go lines 117-150). -/
def zipSnmpLegacy : List String → List GoValue → List (String × String) →
    Option (List (String × String))
  | _, [], m => some m
  | [], _ :: _, _ => none
  | oid :: oids, v :: vs, m =>
      zipSnmpLegacy oids vs (assocSet m (lookupD snmpOidsTable oid) (decodeSysValLegacy v))

def pad2 (n : Nat) : String :=
  if n < 10 then "0" ++ toString n else toString n

/-- Uptime rendering of the src/src generation (polling.go lines 83-99,
    part_004 lines 117-133, part_005 lines 124-140): the tick count is a
    centisecond counter, divided down to whole days/hours/minutes/seconds
    and printed with the Go format
    "Uptime: %d days, %02d hours, %02d minutes, %02d seconds". -/
def uptimeTextOfTicks (ticks : Nat) : String :=
  let uptimeSeconds := ticks / 100
  let days := uptimeSeconds / (24 * 3600)
  let r1 := uptimeSeconds % (24 * 3600)
  let hours := r1 / 3600
  let r2 := r1 % 3600
  let minutes := r2 / 60
  let seconds := r2 % 60
  "Uptime: " ++ toString days ++ " days, " ++ pad2 hours ++ " hours, " ++
    pad2 minutes ++ " minutes, " ++ pad2 seconds ++ " seconds"

/-- An interface record of the src/src generation:
    map[string]interface\x7b\x7d built per interface. -/
abbrev RecordG : Type := List (String × GoValue)

/-- An interface record of the legacy generation: map[string]string. -/
abbrev RecordS : Type := List (String × String)

/-- MAC rendering of part_004 getInterface (lines 324-341): hex-encode,
    uppercase, and when at least 12 hex digits are present join the first
    six uppercase byte-pairs with colons (extra digits are dropped). -/
def macColonP4 (bs : List Nat) : String :=
  let cs := ((hexEncode bs).toUpper).toList
  if 12 ≤ cs.length then
    String.mk (cs.take 2) ++ ":" ++ String.mk ((cs.drop 2).take 2) ++ ":" ++
    String.mk ((cs.drop 4).take 2) ++ ":" ++ String.mk ((cs.drop 6).take 2) ++ ":" ++
    String.mk ((cs.drop 8).take 2) ++ ":" ++ String.mk ((cs.drop 10).take 2)
  else String.mk cs

/-- MAC rendering of part_005 / polling.go getInterface (lines 226-236 of
    polling.go): uppercase successive 2-hex-digit slices joined by single
    spaces with the trailing space trimmed; since hex.EncodeToString
    yields exactly two digits per byte this is the per-byte join below. -/
def macSpaceSeq (bs : List Nat) : String :=
  String.intercalate " "
    (bs.map (fun b => String.mk [(hexDigitChar ((b % 256) / 16)).toUpper, (hexDigitChar (b % 16)).toUpper]))

/-- The variable-processing loop shared by the src/src getInterface
    variants (part_004 lines 313-352, part_005 lines 260-296, polling.go
    lines 214-250): the k-th variable is stored under fields[k]; nil
    values are skipped, byte slices become the MAC rendering for the
    physical-address field and plain strings otherwise, and any other
    value passes through natively.  fields[k] panics with index out of
    range when a non-nil variable appears beyond the field list. -/
def buildRecordG (physKey : String) (macFmt : List Nat → String) :
    List String → List GoValue → RecordG → GoRes RecordG
  | _, [], m => .ok m
  | [], .goNil :: vs, m => buildRecordG physKey macFmt [] vs m
  | [], _ :: _, _ => .panicked indexOutOfRangeMsg
  | f :: fs, v :: vs, m =>
    match v with
    | .goNil => buildRecordG physKey macFmt fs vs m
    | .goBytes b =>
        buildRecordG physKey macFmt fs vs
          (assocSet m f (.goStr (if f = physKey then macFmt b else byteListToString b)))
    | w => buildRecordG physKey macFmt fs vs (assocSet m f w)

/-- Go fmt %v of a modelled value (legacy record fallback branch). -/
def sprintV : GoValue → String
  | .goStr s => s
  | .goInt n => toString n
  | .goUint32 n => toString n
  | .goBytes b => "[" ++ String.intercalate " " (b.map toString) ++ "]"
  | .goNil => "<nil>"

/-- The variable-processing loop of the legacy getInterface
    (src/snmp/snmpfetcher.go lines 201-224): values render to strings,
    byte slices hex-encode (lowercase, unseparated) for PhysicalAddress. -/
def buildRecordS :
    List String → List GoValue → RecordS → GoRes RecordS
  | _, [], m => .ok m
  | [], .goNil :: vs, m => buildRecordS [] vs m
  | [], _ :: _, _ => .panicked indexOutOfRangeMsg
  | f :: fs, v :: vs, m =>
    match v with
    | .goNil => buildRecordS fs vs m
    | .goBytes b =>
        buildRecordS fs vs
          (assocSet m f (if f = "PhysicalAddress" then hexEncode b else byteListToString b))
    | w => buildRecordS fs vs (assocSet m f (sprintV w))

def ifaceOidsUtilFor (i : Int) : List String :=
  interfaceOidsUtil.map (fun p => p.1 ++ "." ++ toString i)

def ifaceFieldsUtil : List String := interfaceOidsUtil.map (fun p => p.2)

def ifaceOidsConfigFor (i : Int) : List String :=
  interfaceOidsConfig.map (fun p => p.1 ++ "." ++ toString i)

def ifaceFieldsConfig : List String := interfaceOidsConfig.map (fun p => p.2)

/-- getInterface of src/unnamed/part_004 (lines 287-354): one batched Get
    for all per-interface OIDs suffixed with the index; on a Get error the
    record carries interfaces.error and the error is returned alongside;
    otherwise the record is filled positionally with the colon MAC format. -/
def getInterfaceP4 (dev : Device) (i : Int) :
    GoRes (RecordG × Option String) × List NetCall :=
  let base : RecordG := [(indexK, .goStr (toString i))]
  match dev.get (ifaceOidsUtilFor i) with
  | .error e =>
      (.ok (assocSet base interfaceErrorK (.goStr ("SNMP get failed: " ++ e)), some e),
       [.getCall (ifaceOidsUtilFor i)])
  | .ok vars =>
      match buildRecordG physicalAddressK macColonP4 ifaceFieldsUtil vars base with
      | .panicked m => (.panicked m, [.getCall (ifaceOidsUtilFor i)])
      | .ok r => (.ok (r, none), [.getCall (ifaceOidsUtilFor i)])

/-- getInterfaces of src/unnamed/part_004 (lines 261-279): sequential
    loop over the enumerated indexes; a failing interface is logged and
    skipped with continue and every other interface is still fetched; the
    function never returns a Go error. -/
def getInterfacesP4 (dev : Device) : List Int → GoRes (List RecordG) × List NetCall
  | [] => (.ok [], [])
  | i :: rest =>
    match getInterfaceP4 dev i, getInterfacesP4 dev rest with
    | (.panicked m, tr), _ => (.panicked m, tr)
    | (.ok (_, some _), tr), (res, tr2) => (res, tr ++ tr2)
    | (.ok (_, none), tr), (.panicked m, tr2) => (.panicked m, tr ++ tr2)
    | (.ok (r, none), tr), (.ok rs, tr2) => (.ok (r :: rs), tr ++ tr2)

/-- getInterface of part_005 (lines 232-300) / polling.go (lines 186-254):
    same batched Get with the space MAC format and the error text
    "Failed to fetch data: ...". -/
def getInterfaceSeq (dev : Device) (i : Int) :
    GoRes (RecordG × Option String) × List NetCall :=
  let base : RecordG := [(indexK, .goStr (toString i))]
  match dev.get (ifaceOidsUtilFor i) with
  | .error e =>
      (.ok (assocSet base interfaceErrorK (.goStr ("Failed to fetch data: " ++ e)), some e),
       [.getCall (ifaceOidsUtilFor i)])
  | .ok vars =>
      match buildRecordG physicalAddressK macSpaceSeq ifaceFieldsUtil vars base with
      | .panicked m => (.panicked m, [.getCall (ifaceOidsUtilFor i)])
      | .ok r => (.ok (r, none), [.getCall (ifaceOidsUtilFor i)])

/-- getInterfaces of part_005 (lines 305-319) / polling.go (lines
    259-273): sequential loop over indices that returns nil and the error
    as soon as any single interface fetch fails, aborting the whole
    collection. -/
def getInterfacesSeqAbort (dev : Device) :
    List Int → GoRes (Except String (List RecordG)) × List NetCall
  | [] => (.ok (.ok []), [])
  | i :: rest =>
    match getInterfaceSeq dev i with
    | (.panicked m, tr) => (.panicked m, tr)
    | (.ok (_, some e), tr) => (.ok (.error e), tr)
    | (.ok (r, none), tr) =>
      match getInterfacesSeqAbort dev rest with
      | (.panicked m, tr2) => (.panicked m, tr ++ tr2)
      | (.ok (.error e), tr2) => (.ok (.error e), tr ++ tr2)
      | (.ok (.ok rs), tr2) => (.ok (.ok (r :: rs)), tr ++ tr2)

/-- getInterface of the legacy src/snmp/snmpfetcher.go (lines 160-230):
    the record always carries Index; on a Get error the record is still
    appended, carrying an Error field. -/
def getInterfaceLegacy (dev : Device) (i : Int) : GoRes RecordS :=
  let base : RecordS := [("Index", toString i)]
  match dev.get (ifaceOidsConfigFor i) with
  | .error e => .ok (assocSet base "Error" ("Failed to fetch data : " ++ e))
  | .ok vars => buildRecordS ifaceFieldsConfig vars base

/-- GetInterfaces of the legacy src/snmp/snmpfetcher.go (lines 236-249):
    one goroutine per index 1..numInterfaces appends its record to a
    shared slice under mutexForData; the final slice order is the
    completion order of the goroutines.  The parameter order is that
    completion order (a permutation of 1..numInterfaces); the trace lists
    the Get calls in the same order. -/
def GetInterfacesLegacy (dev : Device) :
    List Int → GoRes (List RecordS) × List NetCall
  | [] => (.ok [], [])
  | i :: rest =>
    match getInterfaceLegacy dev i, GetInterfacesLegacy dev rest with
    | (.panicked m), _ => (.panicked m, [.getCall (ifaceOidsConfigFor i)])
    | (.ok _), (.panicked m, tr) => (.panicked m, .getCall (ifaceOidsConfigFor i) :: tr)
    | (.ok r), (.ok rs, tr) => (.ok (r :: rs), .getCall (ifaceOidsConfigFor i) :: tr)

def splitDotAux : List Char → List Char → List (List Char)
  | [], acc => [acc.reverse]
  | c :: rest, acc =>
    if c = '.' then acc.reverse :: splitDotAux rest []
    else splitDotAux rest (c :: acc)

/-- Go strings.Split(s, "."): the dot-separated components, never empty
    (the empty string splits to [""]). -/
def splitOnDot (s : String) : List String :=
  (splitDotAux s.toList []).map String.mk

/-- The per-object body of the getInterfaceIndexes walk callback
    (part_004 lines 224-245): split the object name on dots and parse the
    trailing component as the interface index. -/
def parseIfIndex (nm : String) : Except String Int :=
  let parts := splitOnDot nm
  if parts.length = 0 then .error ("invalid OID: " ++ nm)
  else
    match atoi (parts.getLastD "") with
    | some k => .ok k
    | none => .error failedParseIndexS

/-- The walk callback folded over the returned objects: the first parse
    error aborts the walk and is returned by g.Walk. -/
def walkIndexes : List String → Except String (List Int)
  | [] => .ok []
  | nm :: rest =>
    match parseIfIndex nm with
    | .error e => .error e
    | .ok k =>
      match walkIndexes rest with
      | .error e => .error e
      | .ok ks => .ok (k :: ks)

/-- getInterfaceIndexes of src/unnamed/part_004 (lines 218-253):
    enumeration by a subtree walk over the interface-name column OID
    .1.3.6.1.2.1.31.1.1.1.1, collecting the parsed trailing suffix of
    every returned object name; any walk or parse failure is wrapped as
    "SNMP walk failed: ...". -/
def getInterfaceIndexesP4 (dev : Device) : Except String (List Int) × List NetCall :=
  match dev.walk ifNameColumnOid with
  | .error e => (.error ("SNMP walk failed: " ++ e), [.walkCall ifNameColumnOid])
  | .ok names =>
    match walkIndexes names with
    | .error e => (.error ("SNMP walk failed: " ++ e), [.walkCall ifNameColumnOid])
    | .ok ks => (.ok ks, [.walkCall ifNameColumnOid])

/-- Interface enumeration of the legacy src/snmp/snmpfetcher.go (lines
    59-64 with 76 and 241): Atoi of the device-reported
    system.interfaces count (0 on parse failure), then indices 1..count
    when the count is positive.  No walk is involved. -/
def legacyInterfaceIndexes (s : String) : List Int :=
  let n := (atoi s).getD 0
  if 0 < n then (List.range n.toNat).map (fun k => (k : Int) + 1) else []

/-- A value stored in the outgoing data map. -/
inductive DataVal where
  | dstr (s : String)
  | dgo (v : GoValue)
  | dint (n : Int)
  | drecsG (l : List RecordG)
  | drecsS (l : List RecordS)
  | demptyRecs
  deriving Repr, DecidableEq

abbrev DataMap : Type := List (String × DataVal)

/-- The mutations the src/src pipelines apply to reqData: the status,
    error and data keys (absent keys are none). -/
structure ReqOut where
  status : Option String := none
  error : Option String := none
  data : Option DataMap := none
  deriving Repr, DecidableEq

/-- fetchSNMPSystemData shared by part_004 (lines 169-212), part_005
    (lines 174-226) and polling.go (lines 128-180): one batched Get over
    the whole system OID table, zipped back positionally. -/
def fetchSNMPSystemDataGV (dev : Device) :
    GoRes (Except String (List (String × GoValue))) × List NetCall :=
  if sysOidList = [] then (.ok (.error oidNotFoundUtilS), [])
  else
    match dev.get sysOidList with
    | .error e => (.ok (.error e), [.getCall sysOidList])
    | .ok vars =>
      match zipSnmpGV sysOidList vars [] with
      | none => (.panicked indexOutOfRangeMsg, [.getCall sysOidList])
      | some m => (.ok (.ok m), [.getCall sysOidList])

/-- FetchSNMPSystemData of the legacy src/snmp/snmpfetcher.go (lines
    95-153), identical structure with string-rendered values. -/
def fetchSNMPSystemDataLegacy (dev : Device) :
    GoRes (Except String (List (String × String))) × List NetCall :=
  if sysOidList = [] then (.ok (.error "no OIDs found in config.SNMPOids"), [])
  else
    match dev.get sysOidList with
    | .error e => (.ok (.error e), [.getCall sysOidList])
    | .ok vars =>
      match zipSnmpLegacy sysOidList vars [] with
      | none => (.panicked indexOutOfRangeMsg, [.getCall sysOidList])
      | some m => (.ok (.ok m), [.getCall sysOidList])

def rangeIdx (n : Int) : List Int :=
  (List.range n.toNat).map (fun k => (k : Int) + 1)

/-- FetchSNMPData of src/unnamed/part_004 (lines 32-163): validation
    gate (negated, correct polarity), string extraction of ip, community
    and version (a failed type assertion panics), strict version switch,
    connect, batched system fetch, checked uptime decode, walk-based
    interface enumeration and per-interface collection.  Note the two
    quirks proved about below: a system-fetch error yields Status =
    Success with an error payload inside Data, and a connect error places
    its error payload inside Data while Status = Fail. -/
def FetchSNMPData_p4 (req : Req) (dev : Device) : GoRes ReqOut × List NetCall :=
  if ValidateRequest_sv req = false then
    (.ok { status := some failS, error := some fieldMissingS }, [])
  else
    match req.ip, req.community, req.version with
    | some (.goStr _), some (.goStr _), some (.goStr ver) =>
      match mapVersionStrict ver with
      | none => (.ok { status := some failS, error := some unsupportedSNMPS }, [])
      | some _ =>
        if dev.connectOk = false then
          (.ok { status := some failS,
                 data := some [(errorK, .dstr snmpConnectFailS), (messageK, .dstr dev.connectErr)] },
           [.connectCall])
        else
          match fetchSNMPSystemDataGV dev with
          | (.panicked m, tr) => (.panicked m, .connectCall :: tr)
          | (.ok (.error e), tr) =>
            (.ok { status := some successS,
                   data := some [(errorK, .dstr snmpConnectFailS), (messageK, .dstr e)] },
             .connectCall :: tr)
          | (.ok (.ok sysData), tr) =>
            let d0 : DataMap :=
              [(systemNameK, .dgo (lookupGo sysData systemNameK)),
               (systemDescriptionK, .dgo (lookupGo sysData systemDescriptionK)),
               (systemLocationK, .dgo (lookupGo sysData systemLocationK)),
               (systemObjectIdK, .dgo (lookupGo sysData systemObjectIdK))]
            let d1 : DataMap :=
              match assocGet? sysData systemUptimeK with
              | some (.goUint32 u) => d0 ++ [(systemUptimeK, .dstr (uptimeTextOfTicks u))]
              | _ => d0
            match getInterfaceIndexesP4 dev with
            | (.error e, tr2) =>
              (.ok { status := some successS,
                     data := some (d1 ++
                       [(interfaceErrorK, .dstr ("Error fetching interface indexes: " ++ e)),
                        (systemInterfacesK, .dint 0)]) },
               .connectCall :: (tr ++ tr2))
            | (.ok idxs, tr2) =>
              let d2 : DataMap := d1 ++ [(systemInterfacesK, .dint (idxs.length : Int))]
              match getInterfacesP4 dev idxs with
              | (.panicked m, tr3) => (.panicked m, .connectCall :: (tr ++ tr2 ++ tr3))
              | (.ok recs, tr3) =>
                (.ok { status := some successS,
                       data := some (d2 ++ [(interfacesK, .drecsG recs)]) },
                 .connectCall :: (tr ++ tr2 ++ tr3))
    | _, _, _ => (.panicked stringConvMsg, [])

/-- FetchSNMPData of src/unnamed/part_005 (lines 32-170).  The
    validation gate at line 34 uses the un-negated result of
    ValidateRequest, so a VALID request is rejected with the
    field-missing failure while an invalid request falls through to the
    type assertions.  The uptime decode at line 124 is an unchecked
    .(uint32) assertion, the interface count comes from the
    device-reported scalar, and the collection aborts on any
    per-interface failure. -/
def FetchSNMPData_p5 (req : Req) (dev : Device) : GoRes ReqOut × List NetCall :=
  if ValidateRequest_sv req = true then
    (.ok { status := some failS, error := some fieldMissingS }, [])
  else
    match req.ip, req.community, req.version with
    | some (.goStr _), some (.goStr _), some (.goStr ver) =>
      match mapVersionStrict ver with
      | none => (.ok { status := some failS, error := some unsupportedSNMPS }, [])
      | some _ =>
        if dev.connectOk = false then
          (.ok { status := some failS,
                 data := some [(errorK, .dstr snmpConnectFailS), (messageK, .dstr dev.connectErr)] },
           [.connectCall])
        else
          match fetchSNMPSystemDataGV dev with
          | (.panicked m, tr) => (.panicked m, .connectCall :: tr)
          | (.ok (.error e), tr) =>
            (.ok { status := some successS,
                   data := some [(errorK, .dstr snmpConnectFailS), (messageK, .dstr e)] },
             .connectCall :: tr)
          | (.ok (.ok sysData), tr) =>
            let n : Int :=
              match assocGet? sysData systemInterfacesK with
              | some (.goInt k) => k
              | _ => 0
            let d0 : DataMap :=
              [(systemNameK, .dgo (lookupGo sysData systemNameK)),
               (systemDescriptionK, .dgo (lookupGo sysData systemDescriptionK)),
               (systemLocationK, .dgo (lookupGo sysData systemLocationK)),
               (systemObjectIdK, .dgo (lookupGo sysData systemObjectIdK))]
            match assocGet? sysData systemUptimeK with
            | some (.goUint32 u) =>
              let d1 : DataMap := d0 ++
                [(systemUptimeK, .dstr (uptimeTextOfTicks u)),
                 (systemInterfacesK, .dgo (lookupGo sysData systemInterfacesK))]
              if 0 < n then
                match getInterfacesSeqAbort dev (rangeIdx n) with
                | (.panicked m, tr2) => (.panicked m, .connectCall :: (tr ++ tr2))
                | (.ok (.error e), tr2) =>
                  (.ok { status := some successS,
                         data := some (d1 ++
                           [(interfaceErrorK, .dstr ("Error fetching interface data: " ++ e))]) },
                   .connectCall :: (tr ++ tr2))
                | (.ok (.ok recs), tr2) =>
                  (.ok { status := some successS,
                         data := some (d1 ++ [(interfacesK, .drecsG recs)]) },
                   .connectCall :: (tr ++ tr2))
              else
                (.ok { status := some successS,
                       data := some (d1 ++ [(interfacesK, .demptyRecs)]) },
                 .connectCall :: tr)
            | _ => (.panicked uint32ConvMsg, .connectCall :: tr)
    | _, _, _ => (.panicked stringConvMsg, [])

/-- FetchSNMPData of src/src/plugin/snmp/polling.go (lines 29-124): the
    legacy-style signature with the silently-defaulting version switch,
    an unchecked .(uint32) uptime assertion (line 83) and count-based,
    abort-on-failure interface collection.  The deferred g.Conn.Close()
    is registered before Connect (line 55), so on a connect error the
    deferred Close dereferences a nil Conn and panics at function exit. -/
def FetchSNMPData_polling (ip community version : String) (dev : Device) :
    GoRes DataMap × List NetCall :=
  let _v := legacyVersionSwitch version
  if dev.connectOk = false then
    (.panicked nilConnCloseMsg, [.connectCall])
  else
    match fetchSNMPSystemDataGV dev with
    | (.panicked m, tr) => (.panicked m, .connectCall :: tr)
    | (.ok (.error e), tr) =>
      (.ok [(errorK, .dstr ("Error fetching SNMP system data: " ++ e))], .connectCall :: tr)
    | (.ok (.ok sysData), tr) =>
      let n : Int :=
        match assocGet? sysData systemInterfacesK with
        | some (.goInt k) => k
        | _ => 0
      let d0 : DataMap :=
        [(systemNameK, .dgo (lookupGo sysData systemNameK)),
         (systemDescriptionK, .dgo (lookupGo sysData systemDescriptionK)),
         (systemLocationK, .dgo (lookupGo sysData systemLocationK)),
         (systemObjectIdK, .dgo (lookupGo sysData systemObjectIdK))]
      match assocGet? sysData systemUptimeK with
      | some (.goUint32 u) =>
        let d1 : DataMap := d0 ++
          [(systemUptimeK, .dstr (uptimeTextOfTicks u)),
           (systemInterfacesK, .dgo (lookupGo sysData systemInterfacesK))]
        if 0 < n then
          match getInterfacesSeqAbort dev (rangeIdx n) with
          | (.panicked m, tr2) => (.panicked m, .connectCall :: (tr ++ tr2))
          | (.ok (.error e), tr2) =>
            (.ok (d1 ++ [(interfaceErrorK, .dstr ("Error fetching interface data: " ++ e))]),
             .connectCall :: (tr ++ tr2))
          | (.ok (.ok recs), tr2) =>
            (.ok (d1 ++ [(interfacesK, .drecsG recs)]), .connectCall :: (tr ++ tr2))
        else
          (.ok (d1 ++ [(interfacesK, .demptyRecs)]), .connectCall :: tr)
      | _ => (.panicked uint32ConvMsg, .connectCall :: tr)

/-- FetchSNMPData of the legacy src/snmp/snmpfetcher.go (lines 24-88):
    silently-defaulting version switch followed by connect, the
    string-valued system fetch, Atoi of the reported interface count and
    the concurrent GetInterfaces.  order is the goroutine completion
    order, a permutation of 1..count. -/
def FetchSNMPData_legacy (ip community version : String) (dev : Device)
    (order : List Int) : GoRes DataMap × List NetCall :=
  let _v := legacyVersionSwitch version
  if dev.connectOk = false then
    (.ok [(errorK, .dstr ("Error connecting to SNMP target: " ++ dev.connectErr))],
     [.connectCall])
  else
    match fetchSNMPSystemDataLegacy dev with
    | (.panicked m, tr) => (.panicked m, .connectCall :: tr)
    | (.ok (.error e), tr) =>
      (.ok [(errorK, .dstr ("Error fetching SNMP system data: " ++ e))], .connectCall :: tr)
    | (.ok (.ok sysData), tr) =>
      let n : Int := (atoi (lookupD sysData systemInterfacesK)).getD 0
      let d0 : DataMap :=
        [(systemNameK, .dstr (lookupD sysData systemNameK)),
         (systemDescriptionK, .dstr (lookupD sysData systemDescriptionK)),
         (systemLocationK, .dstr (lookupD sysData systemLocationK)),
         (systemObjectIdK, .dstr (lookupD sysData systemObjectIdK)),
         (systemUptimeK, .dstr (lookupD sysData systemUptimeK)),
         (systemInterfacesK, .dstr (lookupD sysData systemInterfacesK))]
      if 0 < n then
        match GetInterfacesLegacy dev order with
        | (.panicked m, tr2) => (.panicked m, .connectCall :: (tr ++ tr2))
        | (.ok recs, tr2) =>
          (.ok (d0 ++ [(interfacesK, .drecsS recs)]), .connectCall :: (tr ++ tr2))
      else
        (.ok (d0 ++ [(interfacesK, .demptyRecs)]), .connectCall :: tr)

/-- A variable returned by the discovery Get.  gosnmp delivers an
    OctetString PDU with a []byte payload (the library contract the
    source relies on with variable.Value.([]byte)); any other PDU type is
    nonOctet. -/
inductive DiscVar where
  | octet (bytes : List Nat)
  | nonOctet (v : GoValue)
  deriving Repr, DecidableEq

/-- Device abstraction for the discovery pipeline: connect outcome and
    the variables returned by the single system-name Get (none = error). -/
structure DiscoDevice where
  connectOk : Bool
  getResp : Option (List DiscVar)

/-- The result.Variables loop of Discovery (src/src/plugin/snmp/
    discovery.go lines 64-75): return at the first OctetString variable. -/
def firstOctet : List DiscVar → Option (List Nat)
  | [] => none
  | .octet bs :: _ => some bs
  | .nonOctet _ :: rest => firstOctet rest

/-- Discovery of src/src/plugin/snmp/discovery.go (lines 11-83): after
    the silently-defaulting version switch, connect and a single Get of
    the system-name OID; every return is a two-key map with status
    success/fail, and every failure path carries an empty systemName. -/
def Discovery_disc (version : String) (dev : DiscoDevice) : List (String × String) :=
  let _v := legacyVersionSwitch version
  if dev.connectOk = false then
    [("status", "fail"), ("systemName", "")]
  else
    match dev.getResp with
    | none => [("status", "fail"), ("systemName", "")]
    | some vars =>
      match firstOctet vars with
      | some bs => [("status", "success"), ("systemName", byteListToString bs)]
      | none => [("status", "fail"), ("systemName", "")]

/-- Whether the batched Get for one interface index succeeds on a device. -/
def fetchOkB (dev : Device) (i : Int) : Bool :=
  match dev.get (ifaceOidsUtilFor i) with
  | .ok _ => true
  | .error _ => false

/-- Side condition of the device model: a Get response carries at most
    one variable per OID sent (the SNMP contract), so the positional
    fields[k] access cannot run out of range. -/
def varsLenOkB (dev : Device) (i : Int) : Bool :=
  match dev.get (ifaceOidsUtilFor i) with
  | .ok vars => decide (vars.length ≤ ifaceFieldsUtil.length)
  | .error _ => true

def dataOfRes (r : GoRes DataMap) : DataMap :=
  match r with
  | .ok d => d
  | .panicked _ => []

/-- The Index fields of a legacy record list, in list order. -/
def legacyIndexFields (r : GoRes (List RecordS)) : List String :=
  match r with
  | .ok recs => recs.map (fun rec => lookupD rec "Index")
  | .panicked _ => []

/- Concrete witnesses and counterexample inputs. -/

def sysValsNilUptime : List GoValue :=
  [.goStr "sw1", .goStr "edge router", .goStr "lab", .goStr "1.3.6.1.4.1.9", .goNil, .goInt 2]

def sysValsUptime : List GoValue :=
  [.goStr "sw1", .goStr "edge router", .goStr "lab", .goStr "1.3.6.1.4.1.9",
   .goUint32 864005900, .goInt 0]

def sysValsSparse : List GoValue :=
  [.goStr "sw1", .goStr "edge router", .goStr "lab", .goStr "1.3.6.1.4.1.9",
   .goUint32 12345, .goInt 3]

def ifVals15 : List GoValue := List.replicate 15 (.goStr "v")

/-- A device that refuses the TCP-level connect. -/
def devDown : Device :=
  { connectOk := false, connectErr := "connection refused",
    get := fun _ => .error "down", walk := fun _ => .error "down" }

/-- A device that accepts the connect but times out on every Get. -/
def devGetFail : Device :=
  { connectOk := true, connectErr := "",
    get := fun _ => .error "request timeout", walk := fun _ => .error "request timeout" }

/-- A device whose uptime scalar comes back absent (nil variable). -/
def devNilUptime : Device :=
  { connectOk := true, connectErr := "",
    get := fun oids => if oids = sysOidList then .ok sysValsNilUptime else .error "noSuchObject",
    walk := fun _ => .error "walk unsupported" }

/-- A device reporting the uptime tick count 864005900 and zero interfaces. -/
def devUptime : Device :=
  { connectOk := true, connectErr := "",
    get := fun oids => if oids = sysOidList then .ok sysValsUptime else .error "noSuchObject",
    walk := fun _ => .error "walk unsupported" }

/-- A device on which exactly the batched fetch for interface index 3
    fails (the per-interface OID lists are shared by both OID tables). -/
def dev3 : Device :=
  { connectOk := true, connectErr := "",
    get := fun oids => if oids = ifaceOidsUtilFor 3 then .error "request timeout" else .ok ifVals15,
    walk := fun _ => .ok [] }

/-- A device with a sparse interface index space 1, 3, 7 whose reported
    interface count is 3. -/
def devSparse : Device :=
  { connectOk := true, connectErr := "",
    get := fun oids => if oids = sysOidList then .ok sysValsSparse else .ok ifVals15,
    walk := fun _ =>
      .ok ["1.3.6.1.2.1.31.1.1.1.1.1", "1.3.6.1.2.1.31.1.1.1.1.3", "1.3.6.1.2.1.31.1.1.1.1.7"] }

/-- Per-interface Get response for index i: the ifIndex column reports
    the index itself, every other column a placeholder string. -/
def ifValsIdx (i : Int) : List GoValue :=
  .goInt i :: List.replicate 14 (.goStr "v")

/-- A device with two interfaces whose per-interface fetches both
    succeed, reporting their own index in the ifIndex column. -/
def dev2 : Device :=
  { connectOk := true, connectErr := "",
    get := fun oids =>
      if oids = ifaceOidsUtilFor 1 then .ok (ifValsIdx 1)
      else if oids = ifaceOidsUtilFor 2 then .ok (ifValsIdx 2)
      else .error "noSuchObject",
    walk := fun _ => .ok [] }

/-- A fully valid request whose protocolVersion is the unsupported "4". -/
def reqV4 : Req :=
  { ip := some (.goStr "10.0.0.1"), community := some (.goStr "public"),
    version := some (.goStr "4"), pluginType := some (.goStr "snmp"),
    requestId := some (.goStr "r1") }

/-- A fully valid request with the supported version "2c". -/
def reqV2c : Req :=
  { ip := some (.goStr "10.0.0.2"), community := some (.goStr "public"),
    version := some (.goStr "2c"), pluginType := some (.goStr "snmp"),
    requestId := some (.goStr "r2") }

/-- A request whose required ip field is absent. -/
def reqNoIp : Req :=
  { ip := none, community := some (.goStr "public"),
    version := some (.goStr "2c"), pluginType := some (.goStr "snmp"),
    requestId := some (.goStr "r3") }

/- Supporting lemmas about the association-list map model. -/

theorem assocGet_set_self {α : Type} (m : List (String × α)) (k : String) (v : α) :
    assocGet? (assocSet m k v) k = some v := by
  induction m with
  | nil => simp [assocSet, assocGet?]
  | cons p rest ih =>
    obtain ⟨k0, v0⟩ := p
    by_cases h : k0 = k <;> simp [assocSet, assocGet?, h, ih]

theorem assocGet_set_ne {α : Type} (m : List (String × α)) (k k2 : String) (v : α)
    (h : k2 ≠ k) : assocGet? (assocSet m k v) k2 = assocGet? m k2 := by
  have hns : ¬ k = k2 := fun hh => h hh.symm
  induction m with
  | nil => simp [assocSet, assocGet?, hns]
  | cons p rest ih =>
    obtain ⟨k0, v0⟩ := p
    by_cases h0 : k0 = k
    · subst h0
      simp [assocSet, assocGet?, hns]
    · by_cases hb : k0 = k2 <;> simp [assocSet, assocGet?, h0, hb, h, ih]

/- Supporting lemmas about the positional zip of the system fetch. -/

theorem zipSnmpGV_total (oids : List String) (vs : List GoValue)
    (m : List (String × GoValue)) (hlen : vs.length ≤ oids.length) :
    ∃ m2, zipSnmpGV oids vs m = some m2 := by
  induction oids generalizing vs m with
  | nil =>
    cases vs with
    | nil => exact ⟨m, rfl⟩
    | cons v vs => simp at hlen
  | cons o os ih =>
    cases vs with
    | nil => exact ⟨m, rfl⟩
    | cons v vs =>
      simp only [List.length_cons, Nat.add_le_add_iff_right] at hlen
      exact ih vs _ hlen

theorem zipSnmpGV_get_notmem (oids : List String) (vs : List GoValue)
    (m m2 : List (String × GoValue)) (k : String)
    (hk : k ∉ oids.map (fun o => lookupD snmpOidsTable o))
    (hz : zipSnmpGV oids vs m = some m2) :
    assocGet? m2 k = assocGet? m k := by
  induction oids generalizing vs m with
  | nil =>
    cases vs with
    | nil => simp [zipSnmpGV] at hz; rw [hz]
    | cons v vs => simp [zipSnmpGV] at hz
  | cons o os ih =>
    cases vs with
    | nil => simp [zipSnmpGV] at hz; rw [hz]
    | cons v vs =>
      simp only [List.map_cons, List.mem_cons, not_or] at hk
      simp only [zipSnmpGV] at hz
      rw [ih vs _ hk.2 hz, assocGet_set_ne _ _ _ _ hk.1]

theorem zipSnmpGV_positional (oids : List String) (vs : List GoValue)
    (m : List (String × GoValue)) (i : Nat)
    (hlen : vs.length = oids.length)
    (hnodup : (oids.map (fun o => lookupD snmpOidsTable o)).Nodup)
    (hi : i < oids.length) :
    ∃ m2, zipSnmpGV oids vs m = some m2 ∧
      assocGet? m2 (lookupD snmpOidsTable (oids.getD i "")) =
        some (decodeSysValGV (vs.getD i .goNil)) := by
  induction oids generalizing vs m i with
  | nil => simp at hi
  | cons o os ih =>
    cases vs with
    | nil => simp at hlen
    | cons v vs =>
      simp only [List.length_cons, Nat.add_right_cancel_iff] at hlen
      simp only [List.map_cons, List.nodup_cons] at hnodup
      cases i with
      | zero =>
        obtain ⟨m2, hm2⟩ := zipSnmpGV_total os vs (assocSet m (lookupD snmpOidsTable o) (decodeSysValGV v)) (le_of_eq hlen)
        refine ⟨m2, hm2, ?_⟩
        simp only [List.getD_cons_zero]
        rw [zipSnmpGV_get_notmem os vs _ m2 _ hnodup.1 hm2]
        exact assocGet_set_self m (lookupD snmpOidsTable o) (decodeSysValGV v)
      | succ j =>
        simp only [List.length_cons, Nat.succ_lt_succ_iff] at hi
        obtain ⟨m2, hm2, hget⟩ := ih vs _ j hlen hnodup.2 hi
        exact ⟨m2, hm2, by simpa using hget⟩

/- Supporting lemmas about the per-interface record builder and collector. -/

theorem buildRecordG_ok_preserve (physKey : String) (macFmt : List Nat → String)
    (k : String) :
    ∀ (vars : List GoValue) (fields : List String) (m : RecordG),
      vars.length ≤ fields.length → k ∉ fields →
      ∃ r, buildRecordG physKey macFmt fields vars m = .ok r ∧
        assocGet? r k = assocGet? m k := by
  intro vars
  induction vars with
  | nil =>
    intro fields m hlen hk
    refine ⟨m, ?_, rfl⟩
    cases fields <;> rfl
  | cons v vs ih =>
    intro fields m hlen hk
    cases fields with
    | nil => simp at hlen
    | cons f fs =>
      simp only [List.length_cons, Nat.succ_le_succ_iff] at hlen
      simp only [List.mem_cons, not_or] at hk
      cases v with
      | goNil =>
        obtain ⟨r, hr, hg⟩ := ih fs m hlen hk.2
        exact ⟨r, by simpa [buildRecordG] using hr, hg⟩
      | goBytes b =>
        obtain ⟨r, hr, hg⟩ := ih fs
          (assocSet m f (.goStr (if f = physKey then macFmt b else byteListToString b))) hlen hk.2
        refine ⟨r, by simpa [buildRecordG] using hr, ?_⟩
        rw [hg, assocGet_set_ne _ _ _ _ hk.1]
      | goStr s =>
        obtain ⟨r, hr, hg⟩ := ih fs (assocSet m f (.goStr s)) hlen hk.2
        refine ⟨r, by simpa [buildRecordG] using hr, ?_⟩
        rw [hg, assocGet_set_ne _ _ _ _ hk.1]
      | goInt n =>
        obtain ⟨r, hr, hg⟩ := ih fs (assocSet m f (.goInt n)) hlen hk.2
        refine ⟨r, by simpa [buildRecordG] using hr, ?_⟩
        rw [hg, assocGet_set_ne _ _ _ _ hk.1]
      | goUint32 n =>
        obtain ⟨r, hr, hg⟩ := ih fs (assocSet m f (.goUint32 n)) hlen hk.2
        refine ⟨r, by simpa [buildRecordG] using hr, ?_⟩
        rw [hg, assocGet_set_ne _ _ _ _ hk.1]

theorem getInterfaceP4_ok (dev : Device) (i : Int) (vars : List GoValue)
    (hg : dev.get (ifaceOidsUtilFor i) = .ok vars)
    (hlen : vars.length ≤ ifaceFieldsUtil.length) :
    ∃ r, getInterfaceP4 dev i = (.ok (r, none), [.getCall (ifaceOidsUtilFor i)]) ∧
      assocGet? r indexK = some (.goStr (toString i)) := by
  have hk : indexK ∉ ifaceFieldsUtil := by decide
  obtain ⟨r, hr, hget⟩ := buildRecordG_ok_preserve physicalAddressK macColonP4 indexK
    vars ifaceFieldsUtil [(indexK, .goStr (toString i))] hlen hk
  refine ⟨r, ?_, ?_⟩
  · simp [getInterfaceP4, hg, hr]
  · rw [hget]; simp [assocGet?]

theorem getInterfaceP4_err (dev : Device) (i : Int) (e : String)
    (hg : dev.get (ifaceOidsUtilFor i) = .error e) :
    getInterfaceP4 dev i =
      (.ok (assocSet [(indexK, .goStr (toString i))] interfaceErrorK
              (.goStr ("SNMP get failed: " ++ e)), some e),
       [.getCall (ifaceOidsUtilFor i)]) := by
  simp [getInterfaceP4, hg]

/-- General behaviour of the part_004 collector: it never aborts, it
    skips exactly the indices whose fetch fails, and the surviving
    records keep the enumeration order, each carrying its own index. -/
theorem getInterfacesP4_fst_spec (dev : Device) :
    ∀ idxs : List Int, (∀ i ∈ idxs, varsLenOkB dev i = true) →
      ∃ recs, (getInterfacesP4 dev idxs).fst = .ok recs ∧
        recs.map (fun r => assocGet? r indexK) =
          (idxs.filter (fun i => fetchOkB dev i)).map
            (fun i => some (.goStr (toString i))) := by
  intro idxs
  induction idxs with
  | nil => intro _; exact ⟨[], rfl, rfl⟩
  | cons i rest ih =>
    intro hlen
    have hleni : varsLenOkB dev i = true := hlen i (List.mem_cons_self i rest)
    have hlenr : ∀ j ∈ rest, varsLenOkB dev j = true :=
      fun j hj => hlen j (List.mem_cons_of_mem i hj)
    obtain ⟨recs, hrecs, hmap⟩ := ih hlenr
    cases hrest : getInterfacesP4 dev rest with
    | mk res2 tr2 =>
      rw [hrest] at hrecs
      have hres2 : res2 = GoRes.ok recs := hrecs
      subst hres2
      cases hg : dev.get (ifaceOidsUtilFor i) with
      | error e =>
        have hfo : fetchOkB dev i = false := by simp [fetchOkB, hg]
        refine ⟨recs, ?_, ?_⟩
        · simp only [getInterfacesP4]
          rw [getInterfaceP4_err dev i e hg, hrest]
        · rw [hmap]
          congr 1
          simp [List.filter_cons, hfo]
      | ok vars =>
        have hvl : vars.length ≤ ifaceFieldsUtil.length := by
          have h2 := hleni
          simp [varsLenOkB, hg] at h2
          exact h2
        have hfo : fetchOkB dev i = true := by simp [fetchOkB, hg]
        obtain ⟨r, hri, hidx⟩ := getInterfaceP4_ok dev i vars hg hvl
        refine ⟨r :: recs, ?_, ?_⟩
        · simp only [getInterfacesP4]
          rw [hri, hrest]
        · simp only [List.map_cons, hidx, List.filter_cons, hfo, if_true, hmap]

theorem mapVersionStrict_eq_none (ver : String) (h1 : ver ≠ "1") (h2 : ver ≠ "2")
    (h2c : ver ≠ "2c") (h3 : ver ≠ "3") : mapVersionStrict ver = none := by
  unfold mapVersionStrict
  split <;> simp_all

/-- C1 counterexample: the claim fails on the legacy generation.  The
    legacy version switch maps the unsupported "4" to Version2c instead
    of failing, and the legacy FetchSNMPData then proceeds to the network:
    its trace contains the connect call and its result is a connect-error
    map, not an unsupported-version failure. -/
theorem c1_counterexample :
    legacyVersionSwitch "4" = SnmpVersion.v2c ∧
    FetchSNMPData_legacy "10.0.0.1" "public" "4" devDown [] =
      (.ok [(errorK, .dstr "Error connecting to SNMP target: connection refused")],
       [.connectCall]) :=
  ⟨rfl, rfl⟩

/-- C1 (amended): in the src/src generation (part_004 FetchSNMPData), a
    valid job whose protocolVersion is none of "1", "2", "2c", "3" is
    rejected with status fail and the stable "unsupported SNMP version"
    error, with an empty network trace: connect, get and walk are never
    invoked and the version is not defaulted.  The legacy generation
    (snmpfetcher.go, polling.go, discovery.go) instead logs and defaults
    to Version2c, as the counterexample shows. -/
theorem c1_strict_reject (req : Req) (dev : Device) (ip comm ver : String)
    (hip : req.ip = some (.goStr ip)) (hcomm : req.community = some (.goStr comm))
    (hver : req.version = some (.goStr ver))
    (hvalid : ValidateRequest_sv req = true)
    (h1 : ver ≠ "1") (h2 : ver ≠ "2") (h2c : ver ≠ "2c") (h3 : ver ≠ "3") :
    FetchSNMPData_p4 req dev =
      (.ok { status := some failS, error := some unsupportedSNMPS }, []) := by
  simp [FetchSNMPData_p4, hvalid, hip, hcomm, hver,
    mapVersionStrict_eq_none ver h1 h2 h2c h3]

/-- Witness for C1 at the concrete version "4". -/
theorem c1_strict_reject_witness :
    FetchSNMPData_p4 reqV4 devDown =
      (.ok { status := some failS, error := some unsupportedSNMPS }, []) :=
  c1_strict_reject reqV4 devDown "10.0.0.1" "public" "4" rfl rfl rfl (by decide)
    (by decide) (by decide) (by decide) (by decide)

/-- C2 (code bug): a job whose connect succeeds but whose batched scalar
    Get fails makes part_004 FetchSNMPData emit status "success" together
    with an error payload placed in data (part_004 lines 93-104; the
    sibling connect-failure path sets Fail), violating the envelope
    invariant that an error is never populated on success and that
    exactly one of data/error is populated per status. -/
theorem c2_success_with_error_payload :
    FetchSNMPData_p4 reqV2c devGetFail =
      (.ok { status := some successS,
             data := some [(errorK, .dstr snmpConnectFailS), (messageK, .dstr "request timeout")] },
       [.connectCall, .getCall sysOidList]) :=
  rfl

/-- C3 (code bug): part_005 FetchSNMPData uses the validation result
    un-negated (line 34).  A request with every required field present
    and non-empty is rejected with the "field missing" failure before any
    network call, while a request whose required ip field is missing
    passes the gate and panics on the subsequent string type assertion
    instead of receiving the missing-field failure. -/
theorem c3_inverted_validation :
    FetchSNMPData_p5 reqV2c devDown =
      (.ok { status := some failS, error := some fieldMissingS }, []) ∧
    FetchSNMPData_p5 reqNoIp devDown = (.panicked stringConvMsg, []) :=
  ⟨rfl, rfl⟩

/-- C4 (code bug): a polling job whose uptime scalar is absent (nil
    variable, decoded to the "nil" sentinel string) drives the unchecked
    .(uint32) assertion of polling.go line 83 into a run-time panic
    instead of a fail result. -/
theorem c4_uptime_panic :
    FetchSNMPData_polling "192.168.1.1" "public" "2c" devNilUptime =
      (.panicked uint32ConvMsg, [.connectCall, .getCall sysOidList]) :=
  rfl

/-- C5 counterexample: the claim fails on the polling.go / part_005
    collector.  With 5 discovered interfaces and the fetch for index 3
    failing, the sequential abort-on-error getInterfaces returns the
    error alone instead of the 4 surviving records: the whole collection
    is aborted by one interface failure. -/
theorem c5_counterexample :
    rangeIdx 5 = [1, 2, 3, 4, 5] ∧
    (getInterfacesSeqAbort dev3 (rangeIdx 5)).fst = .ok (.error "request timeout") :=
  ⟨rfl, rfl⟩

/-- C5 (amended): in part_004's getInterfaces a single interface fetch
    failure is non-fatal: the collector returns ok (so the job stays on
    its success path), the failing index is excluded, and every other
    discovered interface keeps its record, in order, carrying its own
    index (for 5 interfaces with index 3 failing: exactly the 4 records
    for 1, 2, 4, 5).  The polling.go / part_005 variant instead aborts on
    the first failure, as the counterexample shows.  The varsLenOkB side
    condition is the SNMP contract that a Get response carries at most
    one variable per OID sent. -/
theorem c5_failure_excluded (dev : Device) (idxs : List Int)
    (hlen : ∀ i ∈ idxs, varsLenOkB dev i = true) :
    ∃ recs, (getInterfacesP4 dev idxs).fst = .ok recs ∧
      recs.length = (idxs.filter (fun i => fetchOkB dev i)).length ∧
      recs.map (fun r => assocGet? r indexK) =
        (idxs.filter (fun i => fetchOkB dev i)).map
          (fun i => some (.goStr (toString i))) := by
  obtain ⟨recs, h1, h2⟩ := getInterfacesP4_fst_spec dev idxs hlen
  refine ⟨recs, h1, ?_, h2⟩
  have h3 := congrArg List.length h2
  simpa using h3

/-- Witness for C5: 5 interfaces on a device where index 3 fails. -/
theorem c5_failure_excluded_witness :
    ∃ recs, (getInterfacesP4 dev3 [1, 2, 3, 4, 5]).fst = .ok recs ∧
      recs.length = (([1, 2, 3, 4, 5] : List Int).filter (fun i => fetchOkB dev3 i)).length ∧
      recs.map (fun r => assocGet? r indexK) =
        (([1, 2, 3, 4, 5] : List Int).filter (fun i => fetchOkB dev3 i)).map
          (fun i => some (.goStr (toString i))) :=
  c5_failure_excluded dev3 [1, 2, 3, 4, 5] (by decide)

/-- C6 counterexample: the claim fails on the legacy snmpfetcher.go.
    Its enumeration is Atoi of the device-reported count followed by
    iteration over 1..count — for the sparse device with name-column
    suffixes 1, 3, 7 and reported count 3 it fetches indices 1, 2, 3,
    differing from the walk-derived index set, and the legacy pipeline
    trace contains no walk call at all. -/
theorem c6_counterexample :
    legacyInterfaceIndexes "3" = [1, 2, 3] ∧
    (FetchSNMPData_legacy "10.0.0.1" "public" "2c" devSparse [1, 2, 3]).snd.filter
        isWalkCallB = [] ∧
    (getInterfaceIndexesP4 devSparse).fst = .ok [1, 3, 7] ∧
    ([1, 2, 3] : List Int) ≠ [1, 3, 7] :=
  ⟨rfl, rfl, rfl, by decide⟩

theorem parseIfIndex_ok (nm : String)
    (hp : (atoi ((splitOnDot nm).getLastD "")).isSome = true) :
    parseIfIndex nm = .ok ((atoi ((splitOnDot nm).getLastD "")).getD 0) := by
  unfold parseIfIndex
  by_cases hz : (splitOnDot nm).length = 0
  · exfalso
    have he : splitOnDot nm = [] := List.length_eq_zero.mp hz
    rw [he] at hp
    exact absurd hp (by decide)
  · rw [if_neg hz]
    obtain ⟨k, hk⟩ := Option.isSome_iff_exists.mp hp
    rw [hk]
    simp

theorem walkIndexes_ok (names : List String)
    (hp : ∀ nm ∈ names, (atoi ((splitOnDot nm).getLastD "")).isSome = true) :
    walkIndexes names =
      .ok (names.map (fun nm => (atoi ((splitOnDot nm).getLastD "")).getD 0)) := by
  induction names with
  | nil => rfl
  | cons nm rest ih =>
    have h1 := hp nm (List.mem_cons_self nm rest)
    have h2 : ∀ x ∈ rest, (atoi ((splitOnDot x).getLastD "")).isSome = true :=
      fun x hx => hp x (List.mem_cons_of_mem nm hx)
    simp only [walkIndexes]
    rw [parseIfIndex_ok nm h1, ih h2]
    rfl

/-- C6 (amended): part_004's getInterfaceIndexes enumerates by one
    subtree walk over the interface-name column OID .1.3.6.1.2.1.31.1.1.1.1
    and returns exactly the parsed trailing numeric suffix of every
    returned object name, in walk order; the legacy snmpfetcher.go instead
    iterates 1..count from the device-reported interface count, as the
    counterexample shows. -/
theorem c6_walk_enumeration (dev : Device) (names : List String)
    (hw : dev.walk ifNameColumnOid = .ok names)
    (hp : ∀ nm ∈ names, (atoi ((splitOnDot nm).getLastD "")).isSome = true) :
    getInterfaceIndexesP4 dev =
      (.ok (names.map (fun nm => (atoi ((splitOnDot nm).getLastD "")).getD 0)),
       [.walkCall ifNameColumnOid]) := by
  simp [getInterfaceIndexesP4, hw, walkIndexes_ok names hp]

/-- Witness for C6 on the sparse device: suffixes 1, 3, 7 come back. -/
theorem c6_walk_enumeration_witness :
    getInterfaceIndexesP4 devSparse =
      (.ok ((["1.3.6.1.2.1.31.1.1.1.1.1", "1.3.6.1.2.1.31.1.1.1.1.3",
              "1.3.6.1.2.1.31.1.1.1.1.7"] : List String).map
          (fun nm => (atoi ((splitOnDot nm).getLastD "")).getD 0)),
       [.walkCall ifNameColumnOid]) :=
  c6_walk_enumeration devSparse
    ["1.3.6.1.2.1.31.1.1.1.1.1", "1.3.6.1.2.1.31.1.1.1.1.3", "1.3.6.1.2.1.31.1.1.1.1.7"]
    rfl (by decide)

/-- C7 counterexample: the claim fails on the concurrent legacy
    GetInterfaces.  Its result order is the goroutine completion order:
    with completion order [2, 1] (a permutation of 1..2) and both
    per-interface fetches succeeding, the Index fields come out as
    "2", "1" — not sorted ascending — so the result is not ascending for
    every completion order. -/
theorem c7_counterexample :
    ([2, 1] : List Int).Perm [1, 2] ∧
    legacyIndexFields (GetInterfacesLegacy dev2 [2, 1]).fst = ["2", "1"] ∧
    (["2", "1"] : List String).map (fun s => (atoi s).getD 0) = [2, 1] ∧
    ¬ ((2 : Int) < 1) :=
  ⟨by decide, rfl, rfl, by decide⟩

/-- C7 (amended): the part_004 collector is sequential, so when every
    per-interface fetch succeeds it returns exactly one record per
    enumerated index, in enumeration order (the list of index fields
    equals the enumerated index list); the output is therefore ascending
    exactly when the enumeration is, with no dependence on any completion
    order.  The concurrent legacy GetInterfaces orders records by
    completion order instead, as the counterexample shows. -/
theorem c7_enumeration_order (dev : Device) (idxs : List Int)
    (hlen : ∀ i ∈ idxs, varsLenOkB dev i = true)
    (hok : ∀ i ∈ idxs, fetchOkB dev i = true) :
    ∃ recs, (getInterfacesP4 dev idxs).fst = .ok recs ∧
      recs.length = idxs.length ∧
      recs.map (fun r => assocGet? r indexK) =
        idxs.map (fun i => some (.goStr (toString i))) := by
  obtain ⟨recs, h1, h2⟩ := getInterfacesP4_fst_spec dev idxs hlen
  have hf : idxs.filter (fun i => fetchOkB dev i) = idxs := List.filter_eq_self.mpr hok
  rw [hf] at h2
  refine ⟨recs, h1, ?_, h2⟩
  have h3 := congrArg List.length h2
  simpa using h3

/-- Witness for C7 on a two-interface device with ascending enumeration. -/
theorem c7_enumeration_order_witness :
    ∃ recs, (getInterfacesP4 dev2 [1, 2]).fst = .ok recs ∧
      recs.length = ([1, 2] : List Int).length ∧
      recs.map (fun r => assocGet? r indexK) =
        ([1, 2] : List Int).map (fun i => some (.goStr (toString i))) :=
  c7_enumeration_order dev2 [1, 2] (by decide) (by decide)

/-- C8 (confirmed): the system fetch zips the response positionally — the
    i-th returned value is stored under the field name mapped from the
    i-th OID of the ordered list that was sent, for every position i (the
    Nodup hypothesis records that the mapped field names are pairwise
    distinct, which holds for the real table). -/
theorem c8_positional_zip (oids : List String) (vs : List GoValue) (i : Nat)
    (hlen : vs.length = oids.length)
    (hnodup : (oids.map (fun o => lookupD snmpOidsTable o)).Nodup)
    (hi : i < oids.length) :
    ∃ m, zipSnmpGV oids vs [] = some m ∧
      assocGet? m (lookupD snmpOidsTable (oids.getD i "")) =
        some (decodeSysValGV (vs.getD i .goNil)) :=
  zipSnmpGV_positional oids vs [] i hlen hnodup hi

/-- Witness for C8: the full 6-entry table with 6 values in request
    order, checked at the uptime position. -/
theorem c8_positional_zip_witness :
    ∃ m, zipSnmpGV sysOidList
        [.goStr "sw1", .goBytes [97, 98], .goStr "lab", .goStr "1.3.6.1.4.1.9",
         .goUint32 864005900, .goInt 4] [] = some m ∧
      assocGet? m (lookupD snmpOidsTable (sysOidList.getD 4 "")) =
        some (decodeSysValGV
          (([.goStr "sw1", .goBytes [97, 98], .goStr "lab", .goStr "1.3.6.1.4.1.9",
             .goUint32 864005900, .goInt 4] : List GoValue).getD 4 .goNil)) :=
  c8_positional_zip sysOidList
    [.goStr "sw1", .goBytes [97, 98], .goStr "lab", .goStr "1.3.6.1.4.1.9",
     .goUint32 864005900, .goInt 4] 4 (by decide) (by decide) (by decide)

/-- C9 counterexample: on the tick count 864005900 the pipeline renders
    "Uptime: 100 days, 00 hours, 00 minutes, 59 seconds" (864005900
    centiseconds are 100 days plus 59 seconds, and the Go format string
    carries the "Uptime: " heading), which differs from the text the
    claim specifies. -/
theorem c9_counterexample :
    assocGet? (dataOfRes (FetchSNMPData_polling "192.168.1.1" "public" "2c" devUptime).fst)
        systemUptimeK =
      some (.dstr "Uptime: 100 days, 00 hours, 00 minutes, 59 seconds") ∧
    "Uptime: 100 days, 00 hours, 00 minutes, 59 seconds" ≠
      "100 days, 00 hours, 00 minutes, 00 seconds" :=
  ⟨rfl, by decide⟩

/-- C9 (amended): the tick count 864005900, divided by 100 into whole
    seconds and rendered with the fixed format of polling.go lines
    85-99, yields exactly "Uptime: 100 days, 00 hours, 00 minutes, 59
    seconds". -/
theorem c9_uptime_render :
    uptimeTextOfTicks 864005900 = "Uptime: 100 days, 00 hours, 00 minutes, 59 seconds" :=
  rfl

/-- C10 (confirmed): Discovery of src/src/plugin/snmp/discovery.go
    always returns a map holding exactly the keys status and systemName,
    with status "success" or "fail", and an empty systemName whenever the
    status is "fail". -/
theorem c10_discovery_shape (version : String) (dev : DiscoDevice) :
    ∃ s n, Discovery_disc version dev = [("status", s), ("systemName", n)] ∧
      (s = "success" ∨ s = "fail") ∧ (s = "fail" → n = "") := by
  cases hconn : dev.connectOk with
  | false =>
    exact ⟨"fail", "", by simp [Discovery_disc, hconn], Or.inr rfl, fun _ => rfl⟩
  | true =>
    cases hresp : dev.getResp with
    | none =>
      exact ⟨"fail", "", by simp [Discovery_disc, hconn, hresp], Or.inr rfl, fun _ => rfl⟩
    | some vars =>
      cases hfo : firstOctet vars with
      | none =>
        exact ⟨"fail", "", by simp [Discovery_disc, hconn, hresp, hfo], Or.inr rfl,
          fun _ => rfl⟩
      | some bs =>
        exact ⟨"success", byteListToString bs,
          by simp [Discovery_disc, hconn, hresp, hfo], Or.inl rfl,
          fun h => absurd h (by decide)⟩
